import Mathlib

set_option linter.unusedVariables false

/-!
Shallow embedding of `models/amazon_backend/common.py` from the
`connector-amazon` Odoo module (class `AmazonBackend`, model
`amazon.backend`), together with theorems settling the claims about its
scheduler/dispatch behaviour.

Modelling conventions:
* A Python `datetime` is a pair of whole seconds (`Int`) and microseconds
  (`Nat`).  `datetime.strptime(d.strftime('%Y-%m-%d %H:%M:%S'), ...)`
  truncates the microseconds, `timedelta(minutes=2)` is 120 seconds.
* Odoo `Datetime` fields store second-precision strings or `False`; they are
  modelled as `Option Int` (seconds).  `datetime.strptime` applied to a
  stored string succeeds and yields the datetime with zero microseconds;
  applied to `False` it raises (a `TypeError`), modelled by `Except`.
* The database is a `St` value: the backend records, the `queue.job`
  records, the SQS message records, the product-detail records and the
  supplierinfo records the methods search over, plus an event trace that
  records every delegation to an external component (`import_batch`,
  `export_batch`, `with_delay`, `submit_feeds`, ...) and every write to the
  two import-date fields.
* External collaborators whose return values the code branches on
  (`amazon.report.import_batch`) are oracles in `Env`, as is the constant
  `AMAZON_NUMBER_MESSAGES_CHANGE_PRICE_RECOVER` imported from
  `config/common.py` (a file outside the sources at hand).
* `getattr(backends, callback)()` dispatch is modelled by `methodTable`, a
  map from the callback strings to the (argument-free callable) methods the
  class defines; looking up a name the class does not define raises
  `AttributeError`, as Python's `getattr` does.
-/

/-- A Python `datetime`: whole seconds since some epoch plus microseconds. -/
structure PyDatetime where
  sec : Int
  micro : Nat
deriving Repr, DecidableEq

namespace PyDatetime

/-- Models `datetime.strptime(d.strftime('%Y-%m-%d %H:%M:%S'), '%Y-%m-%d %H:%M:%S')`:
the format keeps whole seconds only, so the round trip zeroes the microseconds. -/
def truncToSeconds (t : PyDatetime) : PyDatetime := ⟨t.sec, 0⟩

/-- Models subtraction of a `timedelta` of `n` seconds. -/
def subSeconds (t : PyDatetime) (n : Int) : PyDatetime := ⟨t.sec - n, t.micro⟩

/-- Models `datetime.strptime` on a well-formed stored Odoo datetime string
(second precision). -/
def ofField (d : Int) : PyDatetime := ⟨d, 0⟩

/-- Lexicographic order on datetimes (seconds, then microseconds). -/
def le (a b : PyDatetime) : Prop :=
  a.sec < b.sec ∨ (a.sec = b.sec ∧ a.micro ≤ b.micro)

instance : DecidablePred (fun p : PyDatetime × PyDatetime => le p.1 p.2) :=
  fun _ => by unfold le; infer_instance

instance (a b : PyDatetime) : Decidable (le a b) := by unfold le; infer_instance

end PyDatetime

/-- The fields of an `amazon.backend` record that the methods below read or
write.  `userTechId` stands for `warehouse_id.company_id.user_tech_id`
(`None`/`False` when unset); the two date fields are Odoo `Datetime` fields
(`False` when unset); `sqsAccountId` is the `sqs_account_id` many2one. -/
structure Backend where
  id : Nat
  name : String
  userTechId : Option Nat
  importSalesFromDate : Option Int
  importUpdatedSalesFromDate : Option Int
  sqsAccountId : Option Nat
deriving Repr, DecidableEq

/-- State of a `queue.job` record, from the `queue_job` module
(`PENDING`, `ENQUEUED`, `STARTED`, `DONE`, `FAILED`, `CANCELLED`). -/
inductive JobState where
  | pending | enqueued | started | done | failed | cancelled
deriving Repr, DecidableEq

/-- The columns of a `queue.job` record that `check_same_import_jobs`
searches on. -/
structure QueueJob where
  channel : String
  state : JobState
  funcString : String
  modelName : String
deriving Repr, DecidableEq

/-- An `amazon.config.sqs.message` record: `sqsAccountBackendId` stands for
the related field `sqs_account_id.backend_id`. -/
structure SqsMessage where
  id : Nat
  sqsAccountBackendId : Nat
  processed : Bool
  createDate : Int
deriving Repr, DecidableEq

/-- An `amazon.product.product.detail` record, reduced to the backend it
belongs to (`product_id.backend_id`), which is all `search_count` filters on. -/
structure ProductDetail where
  backendId : Nat
deriving Repr, DecidableEq

/-- A `product.supplierinfo` record, reduced to the columns
`_export_product_product` searches and iterates on (`name.supplier`,
`name.automatic_export_products`, `name.automatic_export_all_markets`,
`product_id`). -/
structure SupplierInfo where
  id : Nat
  productId : Nat
  supplier : Bool
  automaticExportProducts : Bool
  automaticExportAllMarkets : Bool
deriving Repr, DecidableEq

/-- One delegation to an external component, or one write to one of the
two import-date fields.  The trace of these events is the observable
behaviour of the orchestration methods. -/
inductive Event where
  | submitInventoryRequest (user bid : Nat)
  | delayedGetInventory (bid reportId : Nat)
  | submitSalesRequest (bid : Nat) (dateStart dateEnd : PyDatetime)
  | delayedGetSales (bid reportId : Nat)
  | importBatchSales (user bid : Nat) (dateStart dateEnd : PyDatetime)
  | importBatchUpdatedSales (user bid : Nat) (updateStart updateEnd : PyDatetime)
  | exportBatch (user bid : Nat)
  | runDelayedJobs (user bid : Nat)
  | getSqsMessages (user bid : Nat)
  | delayedProcessPriceMessage (messageId : Nat)
  | workContextOpened (bid : Nat)
  | submitFeeds (bid : Nat)
  | exportProductsFromSupplierinfo (supId : Nat)
  | getProductsInitialPricesAndFees (bid : Nat)
  | writeImportSalesFromDate (bid : Nat) (value : Int)
  | writeImportUpdatedSalesFromDate (bid : Nat) (value : Option Int)
deriving Repr, DecidableEq

/-- A Python exception the modelled code can raise. -/
inductive PyErr where
  | attributeError
  | typeError
deriving Repr, DecidableEq

/-- The database plus the trace of external delegations performed so far. -/
structure St where
  backends : List Backend
  jobs : List QueueJob
  messages : List SqsMessage
  productDetails : List ProductDetail
  supplierinfos : List SupplierInfo
  events : List Event
deriving Repr, DecidableEq

/-- Ambient environment: the session uid, the clock (`datetime.now()` /
`datetime.today()`), the oracles for `amazon.report.import_batch` results,
and the `AMAZON_NUMBER_MESSAGES_CHANGE_PRICE_RECOVER` constant imported
from `config/common.py`. -/
structure Env where
  uid : Nat
  now : PyDatetime
  /-- Result of `amazon.report.import_batch(backend, submit_inventory_request)`:
  `none` for a falsy result, `some none` for a result whose `report_ids` is
  falsy, `some (some rid)` for a truthy `report_ids`. -/
  inventoryReport : Nat → Option (Option Nat)
  /-- Result of `amazon.report.import_batch(backend, submit_sales_request)`:
  `none` for a falsy result, `some rid` for a truthy one. -/
  salesReport : Nat → Option Nat
  numberMessagesChangePriceRecover : Nat

/-- Append one event to the trace. -/
def St.emit (st : St) (e : Event) : St :=
  { st with events := st.events ++ [e] }

/-- The user the method works as: `warehouse_id.company_id.user_tech_id`,
falling back on `self.env.uid` when unset. -/
def effUser (env : Env) (b : Backend) : Nat :=
  b.userTechId.getD env.uid

/-- Write `import_sales_from_date` on the backend record with the given id. -/
def St.writeImportSalesFromDate (st : St) (bid : Nat) (v : Option Int) : St :=
  { st with backends := st.backends.map fun x =>
      if x.id = bid then { x with importSalesFromDate := v } else x }

/-- Write `import_updated_sales_from_date` on the backend record with the
given id. -/
def St.writeImportUpdatedSalesFromDate (st : St) (bid : Nat) (v : Option Int) : St :=
  { st with backends := st.backends.map fun x =>
      if x.id = bid then { x with importUpdatedSalesFromDate := v } else x }

/-- Models `self.search(domain)` on `amazon.backend`: an empty domain
(`None` defaulted to `[]`) matches every record. -/
def searchBackends (st : St) (domain : Option (Backend → Bool)) : List Backend :=
  st.backends.filter (domain.getD fun _ => true)

namespace AmazonBackend

/-- Per-backend body of `_update_product_stock_qty_prices`: resolve the
technical user and call `export_batch` on the `amazon.product.product`
binding model (the `sudo` switch picks the user, which the event records). -/
def updateProductStockQtyPricesStep (env : Env) (st : St) (b : Backend) : St :=
  st.emit (.exportBatch (effUser env b) b.id)

/-- Embedding of `_update_product_stock_qty_prices` (lines 322-332):
`for backend in self: ... product_binding_model.export_batch(backend)`. -/
def _update_product_stock_qty_prices (env : Env) (recs : List Backend) (st : St) : St :=
  recs.foldl (updateProductStockQtyPricesStep env) st

/-- Embedding of `_fix_amazon_data` (lines 334-347): the loop body runs
`fix_data_model.run_delayed_jobs(backend)` and then hits an unconditional
`break`, so only the first record of the set is processed; returns `True`. -/
def _fix_amazon_data (env : Env) (recs : List Backend) (st : St) : St × Bool :=
  (match recs with
   | [] => st
   | b :: _ => st.emit (.runDelayedJobs (effUser env b) b.id),
   true)

/-- Embedding of `_get_price_changes` (lines 349-359): per backend, resolve
the technical user and call `get_sqs_messages` on
`amazon.config.sqs.message`. -/
def _get_price_changes (env : Env) (recs : List Backend) (st : St) : St :=
  recs.foldl (fun s b => s.emit (.getSqsMessages (effUser env b) b.id)) st

/-- Embedding of `_throw_feeds` (lines 391-401): per backend, enter
`backend.work_on(self._name)` (which constructs the `AmazonAPI` client for
the session, modelled by the `workContextOpened` event), look up the
`amazon.feed` component with usage `amazon.submit.feeds` and call
`submit_feeds()` on it.  The `user` local is computed but unused in the
source. -/
def _throw_feeds (env : Env) (recs : List Backend) (st : St) : St :=
  recs.foldl (fun s b => (s.emit (.workContextOpened b.id)).emit (.submitFeeds b.id)) st

/-- Embedding of `_get_initial_prices_and_fees` (lines 361-365): searches
all `amazon.backend` records (ignoring `self`) and calls
`get_products_initial_prices_and_fees` per backend. -/
def _get_initial_prices_and_fees (env : Env) (recs : List Backend) (st : St) : St :=
  (searchBackends st none).foldl
    (fun s b => s.emit (.getProductsInitialPricesAndFees b.id)) st

/-- The default `import_end_time` (lines 257-258 and 307-309):
`datetime.strptime(datetime.today().strftime('%Y-%m-%d %H:%M:%S'),
'%Y-%m-%d %H:%M:%S') - timedelta(minutes=2)`, i.e. the current time
truncated to whole seconds, minus 120 seconds. -/
def defaultImportEnd (now : PyDatetime) : PyDatetime :=
  now.truncToSeconds.subSeconds 120

/-- One iteration of the `for backend in self` loop of `_import_sale_orders`
(lines 249-289).  The loop mutates the function-local
`import_start_time`/`import_end_time`, so the iteration takes and returns
their current values.  Line 254 assigns `import_updated_sales_from_date`
from `import_sales_from_date` when the former is unset; the defaulted end
and start times follow lines 257-265; the `generate_report` branch submits
a sales report request and, when `import_batch` returns a truthy result,
queues a delayed `get_sales` import; the other branch calls `import_batch`
on `amazon.sale.order` (under `sudo(user)` when the technical user
differs); finally, when `update_import_date` holds, line 289 writes
`import_sales_from_date := import_end_time` (stored at second precision). -/
def importSaleOrdersStep (env : Env) (generateReport updateImportDate : Bool)
    (b : Backend) (sOpt eOpt : Option PyDatetime) (st : St) :
    St × Option PyDatetime × Option PyDatetime :=
  let user := effUser env b
  let st :=
    if b.importUpdatedSalesFromDate = none then
      (st.writeImportUpdatedSalesFromDate b.id b.importSalesFromDate).emit
        (.writeImportUpdatedSalesFromDate b.id b.importSalesFromDate)
    else st
  let endT := eOpt.getD (defaultImportEnd env.now)
  let startT := sOpt.getD
    (match b.importSalesFromDate with
     | some d => PyDatetime.ofField d
     | none => endT)
  let st :=
    if generateReport then
      let st := st.emit (.submitSalesRequest b.id startT endT)
      match env.salesReport b.id with
      | some rid => st.emit (.delayedGetSales b.id rid)
      | none => st
    else
      st.emit (.importBatchSales user b.id startT endT)
  let st :=
    if updateImportDate then
      (st.writeImportSalesFromDate b.id (some endT.sec)).emit
        (.writeImportSalesFromDate b.id endT.sec)
    else st
  (st, some startT, some endT)

/-- The `for backend in self` loop of `_import_sale_orders`, threading the
function-local start/end times through the iterations. -/
def importSaleOrdersLoop (env : Env) (generateReport updateImportDate : Bool) :
    List Backend → Option PyDatetime → Option PyDatetime → St → St
  | [], _, _, st => st
  | b :: bs, sOpt, eOpt, st =>
    let r := importSaleOrdersStep env generateReport updateImportDate b sOpt eOpt st
    importSaleOrdersLoop env generateReport updateImportDate bs r.2.1 r.2.2 r.1

/-- Embedding of `_import_sale_orders` (lines 242-291); returns `True`. -/
def _import_sale_orders (env : Env) (recs : List Backend)
    (importStartTime importEndTime : Option PyDatetime)
    (generateReport updateImportDate : Bool) (st : St) : St × Bool :=
  (importSaleOrdersLoop env generateReport updateImportDate recs
    importStartTime importEndTime st, true)

/-- One iteration of the `for backend in self` loop of
`_import_updated_sales` (lines 299-320).  The defaulted end time follows
lines 307-309.  Lines 310-314 default the start time: the guard tests
`backend.import_sales_from_date` but the parsed value is
`backend.import_updated_sales_from_date`, so when the guard holds and the
latter field is unset, `datetime.strptime(False, ...)` raises a
`TypeError`; when the guard fails the start time is the end time.  Then
`import_batch` runs on `amazon.sale.order` with the update filters, and
when `update_import_date` holds line 320 writes
`import_updated_sales_from_date := import_end_time`. -/
def importUpdatedSalesStep (env : Env) (updateImportDate : Bool)
    (b : Backend) (sOpt eOpt : Option PyDatetime) (st : St) :
    Except PyErr (St × Option PyDatetime × Option PyDatetime) := do
  let user := effUser env b
  let endT := eOpt.getD (defaultImportEnd env.now)
  let startT ←
    match sOpt with
    | some s => pure s
    | none =>
      if b.importSalesFromDate ≠ none then
        match b.importUpdatedSalesFromDate with
        | some d => pure (PyDatetime.ofField d)
        | none => Except.error PyErr.typeError
      else pure endT
  let st := st.emit (.importBatchUpdatedSales user b.id startT endT)
  let st :=
    if updateImportDate then
      (st.writeImportUpdatedSalesFromDate b.id (some endT.sec)).emit
        (.writeImportUpdatedSalesFromDate b.id (some endT.sec))
    else st
  pure (st, some startT, some endT)

/-- The `for backend in self` loop of `_import_updated_sales`; a raised
exception aborts the remaining iterations. -/
def importUpdatedSalesLoop (env : Env) (updateImportDate : Bool) :
    List Backend → Option PyDatetime → Option PyDatetime → St → Except PyErr St
  | [], _, _, st => .ok st
  | b :: bs, sOpt, eOpt, st => do
    let r ← importUpdatedSalesStep env updateImportDate b sOpt eOpt st
    importUpdatedSalesLoop env updateImportDate bs r.2.1 r.2.2 r.1

/-- Embedding of `_import_updated_sales` (lines 293-320); returns `None`. -/
def _import_updated_sales (env : Env) (recs : List Backend)
    (importStartTime importEndTime : Option PyDatetime)
    (updateImportDate : Bool) (st : St) : Except PyErr St :=
  importUpdatedSalesLoop env updateImportDate recs importStartTime importEndTime st

/-- One iteration of the loop of `_import_product_product` (lines 196-220):
submit an inventory report request; when the result and its `report_ids`
are truthy, queue a delayed `get_inventory` import.  The body's
`try/except` swallows exceptions, and nothing in the modelled body raises. -/
def importProductProductStep (env : Env) (st : St) (b : Backend) : St :=
  let user := effUser env b
  let st := st.emit (.submitInventoryRequest user b.id)
  match env.inventoryReport b.id with
  | some (some rid) => st.emit (.delayedGetInventory b.id rid)
  | _ => st

/-- Embedding of `_import_product_product` (lines 195-227); returns `True`. -/
def _import_product_product (env : Env) (recs : List Backend) (st : St) : St × Bool :=
  (recs.foldl (importProductProductStep env) st, true)

/-- Embedding of `_export_product_product` (lines 229-240): search the
`product.supplierinfo` records whose partner is a supplier with one of the
automatic-export flags, ordered by `product_id`, and call
`export_products_from_supplierinfo` on the first record of each
`product_id` group (the `product_id` local starts at `0`). -/
def _export_product_product (env : Env) (recs : List Backend) (st : St) : St :=
  let supProducts :=
    (st.supplierinfos.filter fun s =>
      s.supplier && (s.automaticExportProducts || s.automaticExportAllMarkets)).insertionSort
      (fun a b => a.productId ≤ b.productId)
  (supProducts.foldl
    (fun (acc : St × Nat) supProduct =>
      let s :=
        if acc.2 = 0 ∨ supProduct.productId ≠ acc.2 then
          acc.1.emit (.exportProductsFromSupplierinfo supProduct.id)
        else acc.1
      (s, supProduct.productId))
    (st, 0)).1

/-- Embedding of `_throw_delayed_jobs_for_price_changess` (lines 367-389) —
the defined name carries the trailing double `s` of the source.  It
searches all backends with an SQS account (ignoring `self`), caps the
number of messages at `AMAZON_NUMBER_MESSAGES_CHANGE_PRICE_RECOVER`,
fetches that many unprocessed messages of the backend ordered by
`create_date asc`, and queues one delayed `process_price_message` job per
message. -/
def _throw_delayed_jobs_for_price_changess (env : Env) (recs : List Backend) (st : St) : St :=
  let backends := st.backends.filter fun b => b.sqsAccountId.isSome
  backends.foldl
    (fun s b =>
      let numberMessages :=
        (s.productDetails.filter fun p => p.backendId = b.id).length
      let numberMessages :=
        if numberMessages > env.numberMessagesChangePriceRecover then
          env.numberMessagesChangePriceRecover
        else numberMessages
      let messages :=
        ((s.messages.filter fun m =>
            m.sqsAccountBackendId == b.id && !m.processed).insertionSort
          (fun a c => a.createDate ≤ c.createDate)).take numberMessages
      messages.foldl (fun s2 m => s2.emit (.delayedProcessPriceMessage m.id)) s)
    st

end AmazonBackend

/-- Does `pat` occur at the head of `s`? (building block for `ilike`). -/
def matchesAt : List Char → List Char → Bool
  | [], _ => true
  | _ :: _, [] => false
  | a :: as, b :: bs => a == b && matchesAt as bs

/-- Does `pat` occur contiguously anywhere in `s`? -/
def containsSeq (pat : List Char) : List Char → Bool
  | [] => matchesAt pat []
  | b :: bs => matchesAt pat (b :: bs) || containsSeq pat bs

/-- The ORM `ilike` operator: case-insensitive containment of the pattern
in the column value (the ORM wraps the pattern in `%...%`). -/
def ilike (value pat : String) : Bool :=
  containsSeq (pat.data.map Char.toLower) (value.data.map Char.toLower)

/-- `str(backend)` on an `amazon.backend` recordset of one record:
the model name followed by the id tuple. -/
def backendStr (b : Backend) : String :=
  "amazon.backend(" ++ toString b.id ++ ",)"

namespace AmazonBackend

/-- The search predicate of `check_same_import_jobs` (lines 122-126): the
job is on channel `root.amazon`, its state is one of `STARTED`, `ENQUEUED`,
`PENDING`, its `func_string` contains `str(backend)` and the key, and its
`model_name` contains the model (all `ilike`). -/
def jobMatches (backend : Backend) (model key : String) (j : QueueJob) : Bool :=
  j.channel == "root.amazon" &&
  (j.state == .started || j.state == .enqueued || j.state == .pending) &&
  ilike j.funcString (backendStr backend) &&
  ilike j.modelName model &&
  ilike j.funcString key

/-- Embedding of `check_same_import_jobs` (lines 119-129): default the
backend to `self` when the argument is falsy, search `queue.job`, return
`True` when the search found something and `False` otherwise. -/
def check_same_import_jobs (st : St) (self : Backend) (model key : String)
    (backendOpt : Option Backend) : Bool :=
  let backend := backendOpt.getD self
  let job := st.jobs.filter (jobMatches backend model key)
  if job.isEmpty then false else true

/-- A backend method callable with no arguments, as dispatched by
`_amazon_backend` via `getattr`. -/
def Callback : Type :=
  Env → List Backend → St → Except PyErr St

/-- `_import_sale_orders` as a no-argument callback (all defaults). -/
def cbImportSaleOrders : Callback := fun env recs st =>
  .ok (_import_sale_orders env recs none none false true st).1

/-- `_import_updated_sales` as a no-argument callback (all defaults). -/
def cbImportUpdatedSales : Callback := fun env recs st =>
  _import_updated_sales env recs none none true st

/-- `_import_product_product` as a no-argument callback. -/
def cbImportProductProduct : Callback := fun env recs st =>
  .ok (_import_product_product env recs st).1

/-- `_export_product_product` as a no-argument callback. -/
def cbExportProductProduct : Callback := fun env recs st =>
  .ok (_export_product_product env recs st)

/-- `_update_product_stock_qty_prices` as a no-argument callback. -/
def cbUpdateProductStockQtyPrices : Callback := fun env recs st =>
  .ok (_update_product_stock_qty_prices env recs st)

/-- `_fix_amazon_data` as a no-argument callback. -/
def cbFixAmazonData : Callback := fun env recs st =>
  .ok (_fix_amazon_data env recs st).1

/-- `_get_price_changes` as a no-argument callback. -/
def cbGetPriceChanges : Callback := fun env recs st =>
  .ok (_get_price_changes env recs st)

/-- `_throw_delayed_jobs_for_price_changess` as a no-argument callback. -/
def cbThrowDelayedJobsForPriceChangess : Callback := fun env recs st =>
  .ok (_throw_delayed_jobs_for_price_changess env recs st)

/-- `_throw_feeds` as a no-argument callback. -/
def cbThrowFeeds : Callback := fun env recs st =>
  .ok (_throw_feeds env recs st)

/-- `_get_initial_prices_and_fees` as a no-argument callback. -/
def cbGetInitialPricesAndFees : Callback := fun env recs st =>
  .ok (_get_initial_prices_and_fees env recs st)

/-- The attribute lookup `getattr(backends, callback)` performed by
`_amazon_backend`, over the no-argument-callable methods the class
`AmazonBackend` defines.  No other attribute of the class (field or other
method) shares one of the scheduler callback names, so a lookup of any
string outside this table raises `AttributeError` — in particular the
string `'_throw_delayed_jobs_for_price_changes'` passed by
`_scheduler_throw_jobs_for_price_changes`: the method the class defines is
spelled `_throw_delayed_jobs_for_price_changess`. -/
def methodTable : String → Option Callback
  | "_import_sale_orders" => some cbImportSaleOrders
  | "_import_updated_sales" => some cbImportUpdatedSales
  | "_import_product_product" => some cbImportProductProduct
  | "_export_product_product" => some cbExportProductProduct
  | "_update_product_stock_qty_prices" => some cbUpdateProductStockQtyPrices
  | "_fix_amazon_data" => some cbFixAmazonData
  | "_get_price_changes" => some cbGetPriceChanges
  | "_throw_delayed_jobs_for_price_changess" => some cbThrowDelayedJobsForPriceChangess
  | "_throw_feeds" => some cbThrowFeeds
  | "_get_initial_prices_and_fees" => some cbGetInitialPricesAndFees
  | _ => none

/-- Embedding of `_amazon_backend` (lines 403-409): default the domain to
`[]`, search; when the result is non-empty, `getattr` the callback on the
result set and call it. -/
def _amazon_backend (env : Env) (callback : String)
    (domain : Option (Backend → Bool)) (st : St) : Except PyErr St :=
  let backends := searchBackends st domain
  if backends.isEmpty then .ok st
  else
    match methodTable callback with
    | none => .error .attributeError
    | some f => f env backends st

/-- Embedding of `_scheduler_import_sale_orders` (lines 411-414): two
sequential dispatches; an exception in the first aborts the second. -/
def _scheduler_import_sale_orders (env : Env)
    (domain : Option (Backend → Bool)) (st : St) : Except PyErr St :=
  (_amazon_backend env "_import_sale_orders" domain st).bind
    (_amazon_backend env "_import_updated_sales" domain)

/-- Embedding of `_scheduler_import_product_product` (lines 416-418). -/
def _scheduler_import_product_product (env : Env)
    (domain : Option (Backend → Bool)) (st : St) : Except PyErr St :=
  _amazon_backend env "_import_product_product" domain st

/-- Embedding of `_scheduler_export_product_product` (lines 420-422). -/
def _scheduler_export_product_product (env : Env)
    (domain : Option (Backend → Bool)) (st : St) : Except PyErr St :=
  _amazon_backend env "_export_product_product" domain st

/-- Embedding of `_scheduler_update_product_prices_stock_qty`
(lines 424-426). -/
def _scheduler_update_product_prices_stock_qty (env : Env)
    (domain : Option (Backend → Bool)) (st : St) : Except PyErr St :=
  _amazon_backend env "_update_product_stock_qty_prices" domain st

/-- Embedding of `_scheduler_connector_amazon_fix_data` (lines 428-430). -/
def _scheduler_connector_amazon_fix_data (env : Env)
    (domain : Option (Backend → Bool)) (st : St) : Except PyErr St :=
  _amazon_backend env "_fix_amazon_data" domain st

/-- Embedding of `_scheduler_get_price_changes` (lines 432-439). -/
def _scheduler_get_price_changes (env : Env)
    (domain : Option (Backend → Bool)) (st : St) : Except PyErr St :=
  _amazon_backend env "_get_price_changes" domain st

/-- Embedding of `_scheduler_throw_jobs_for_price_changes` (lines 441-449):
the dispatched callback string is `'_throw_delayed_jobs_for_price_changes'`
(single trailing `s`), exactly as in the source. -/
def _scheduler_throw_jobs_for_price_changes (env : Env)
    (domain : Option (Backend → Bool)) (st : St) : Except PyErr St :=
  _amazon_backend env "_throw_delayed_jobs_for_price_changes" domain st

/-- Embedding of `_scheduler_throw_feeds` (lines 451-453). -/
def _scheduler_throw_feeds (env : Env)
    (domain : Option (Backend → Bool)) (st : St) : Except PyErr St :=
  _amazon_backend env "_throw_feeds" domain st

/-- Embedding of `_scheduler_get_initial_prices_and_fees` (lines 455-462). -/
def _scheduler_get_initial_prices_and_fees (env : Env)
    (domain : Option (Backend → Bool)) (st : St) : Except PyErr St :=
  _amazon_backend env "_get_initial_prices_and_fees" domain st

end AmazonBackend

/-! Concrete sample data used by witnesses and counterexamples. -/

/-- A concrete environment: uid 1, clock at 100000 seconds and 250
microseconds, report oracles returning falsy results. -/
def sampleEnv : Env :=
  { uid := 1
    now := ⟨100000, 250⟩
    inventoryReport := fun _ => none
    salesReport := fun _ => none
    numberMessagesChangePriceRecover := 500 }

/-- A concrete backend with both import dates set. -/
def sampleBackend : Backend :=
  { id := 7, name := "amazon-eu", userTechId := none
    importSalesFromDate := some 90000, importUpdatedSalesFromDate := some 80000
    sqsAccountId := some 3 }

/-- A concrete database holding `sampleBackend` and nothing else. -/
def sampleSt : St :=
  { backends := [sampleBackend], jobs := [], messages := []
    productDetails := [], supplierinfos := [], events := [] }

/-- A backend whose `import_sales_from_date` is set but whose
`import_updated_sales_from_date` is unset. -/
def noUpdatedDateBackend : Backend :=
  { id := 8, name := "amazon-us", userTechId := none
    importSalesFromDate := some 90000, importUpdatedSalesFromDate := none
    sqsAccountId := none }

/-- A backend whose stored `import_sales_from_date` (200000) lies after the
clock of `sampleEnv` (100000). -/
def futureBackend : Backend :=
  { id := 9, name := "amazon-jp", userTechId := none
    importSalesFromDate := some 200000, importUpdatedSalesFromDate := some 1
    sqsAccountId := none }

/-- A backend with `import_sales_from_date` unset. -/
def unsetDateBackend : Backend :=
  { id := 10, name := "amazon-mx", userTechId := none
    importSalesFromDate := none, importUpdatedSalesFromDate := some 1
    sqsAccountId := none }

namespace AmazonBackend

/-- A `foldl` over backends whose step only appends events appends the
concatenation of the per-backend events. -/
theorem foldl_trace (g : St → Backend → St) (out : Backend → List Event)
    (hg : ∀ s b, g s b = { s with events := s.events ++ out b }) (recs : List Backend) :
    ∀ st : St, recs.foldl g st =
      { st with events := st.events ++ recs.foldr (fun b acc => out b ++ acc) [] } := by
  induction recs with
  | nil => intro st; simp
  | cons b bs ih =>
    intro st
    simp only [List.foldl_cons, List.foldr_cons]
    rw [hg, ih]
    simp

/-- C10: `_fix_amazon_data` runs the delayed-jobs fix for at most the first
backend of the record set (the loop body ends in an unconditional `break`,
leaving every later backend unprocessed) and always returns `True`. -/
theorem fix_amazon_data_only_first (env : Env) (recs : List Backend) (st : St) :
    (_fix_amazon_data env recs st).2 = true ∧
    (_fix_amazon_data env recs st).1.backends = st.backends ∧
    (_fix_amazon_data env recs st).1.events =
      st.events ++
        (recs.head?.map fun b => Event.runDelayedJobs (effUser env b) b.id).toList := by
  cases recs <;> simp [_fix_amazon_data, St.emit]

/-- C8: `_throw_feeds` opens a work context on each backend of the record
set (constructing the Amazon API client for the session) and inside it
calls `submit_feeds` on the `amazon.feed` component exactly once per
backend; nothing else is changed. -/
theorem throw_feeds_once_per_backend (env : Env) (recs : List Backend) (st : St) :
    _throw_feeds env recs st =
      { st with events := st.events ++
          recs.foldr (fun b acc =>
            [Event.workContextOpened b.id, Event.submitFeeds b.id] ++ acc) [] } := by
  unfold _throw_feeds
  exact foldl_trace _ _ (fun s b => by simp [St.emit]) recs st

/-- C2: when the domain matches at least one backend,
`_scheduler_update_product_prices_stock_qty` dispatches to
`_update_product_stock_qty_prices`, which calls `export_batch` on the
`amazon.product.product` binding model exactly once per matched backend
(under the backend's technical user). -/
theorem scheduler_update_prices_export_batch_per_backend (env : Env)
    (domain : Option (Backend → Bool)) (st : St)
    (h : searchBackends st domain ≠ []) :
    _scheduler_update_product_prices_stock_qty env domain st =
      .ok { st with events := st.events ++
        (searchBackends st domain).map fun b => Event.exportBatch (effUser env b) b.id } := by
  have htab : methodTable "_update_product_stock_qty_prices" =
      some cbUpdateProductStockQtyPrices := rfl
  have htr := foldl_trace (updateProductStockQtyPricesStep env)
    (fun b => [Event.exportBatch (effUser env b) b.id])
    (fun s b => rfl) (searchBackends st domain) st
  unfold _scheduler_update_product_prices_stock_qty _amazon_backend
  rw [if_neg (by simpa [List.isEmpty_iff] using h), htab]
  show Except.ok (_update_product_stock_qty_prices env (searchBackends st domain) st) = _
  unfold _update_product_stock_qty_prices
  rw [htr]
  congr 1
  induction searchBackends st domain with
  | nil => simp
  | cons c cs ihc => simp_all

/-- C2 witness: the dispatch on the one-backend sample database performs
exactly one `export_batch`. -/
theorem scheduler_update_prices_export_batch_witness :
    searchBackends sampleSt none ≠ [] ∧
    _scheduler_update_product_prices_stock_qty sampleEnv none sampleSt =
      .ok { sampleSt with events := sampleSt.events ++
        (searchBackends sampleSt none).map fun b =>
          Event.exportBatch (effUser sampleEnv b) b.id } :=
  ⟨by decide,
   scheduler_update_prices_export_batch_per_backend sampleEnv none sampleSt (by decide)⟩

/-- C7: `_amazon_backend` performs no work at all on an empty search result
(the state, in particular every backend record, is returned unchanged), and
when the search result is non-empty it invokes the callback exactly once,
on the whole matched record set. -/
theorem amazon_backend_dispatch (env : Env) (cb : String)
    (domain : Option (Backend → Bool)) (st : St) :
    (searchBackends st domain = [] → _amazon_backend env cb domain st = .ok st) ∧
    (∀ f, methodTable cb = some f → searchBackends st domain ≠ [] →
      _amazon_backend env cb domain st = f env (searchBackends st domain) st) := by
  constructor
  · intro h
    unfold _amazon_backend
    rw [if_pos (by simpa [List.isEmpty_iff] using h)]
  · intro f hf h
    unfold _amazon_backend
    rw [if_neg (by simpa [List.isEmpty_iff] using h), hf]

/-- C7 witness: a domain matching nothing leaves the sample state
untouched; the default domain dispatches `_throw_feeds` once on the whole
matched set. -/
theorem amazon_backend_dispatch_witness :
    (_amazon_backend sampleEnv "_throw_feeds" (some fun _ => false) sampleSt =
      .ok sampleSt) ∧
    (_amazon_backend sampleEnv "_throw_feeds" none sampleSt =
      cbThrowFeeds sampleEnv (searchBackends sampleSt none) sampleSt) :=
  ⟨(amazon_backend_dispatch sampleEnv "_throw_feeds" (some fun _ => false) sampleSt).1
      (by decide),
   (amazon_backend_dispatch sampleEnv "_throw_feeds" none sampleSt).2
      cbThrowFeeds rfl (by decide)⟩

/-- C1: evaluation at the failing input.  The class defines the price-change
job thrower under the name `_throw_delayed_jobs_for_price_changess`
(trailing double `s`), but `_scheduler_throw_jobs_for_price_changes`
dispatches the string `'_throw_delayed_jobs_for_price_changes'`; on any
domain matching at least one backend (here: the default domain on the
one-backend sample database) `getattr` raises `AttributeError`, so the
dispatch never reaches the message-processing operation. -/
theorem scheduler_throw_jobs_price_changes_misdispatch :
    (methodTable "_throw_delayed_jobs_for_price_changess").isSome = true ∧
    methodTable "_throw_delayed_jobs_for_price_changes" = none ∧
    _scheduler_throw_jobs_for_price_changes sampleEnv none sampleSt =
      .error .attributeError :=
  ⟨rfl, rfl, rfl⟩

/-- C5: `_scheduler_import_sale_orders` performs exactly two steps in
order: first the new-sales import (`_import_sale_orders`, default
arguments) over the backends matched by the domain, then the updated-sales
pass (`_import_updated_sales`, default arguments) over the backends
matched by the same domain on the intermediate state; each step is skipped
when its search matches nothing. -/
theorem scheduler_import_sale_orders_two_steps (env : Env)
    (domain : Option (Backend → Bool)) (st : St) :
    _scheduler_import_sale_orders env domain st =
      (let m1 := searchBackends st domain
       let st1 := if m1.isEmpty then st
                  else (_import_sale_orders env m1 none none false true st).1
       let m2 := searchBackends st1 domain
       if m2.isEmpty then .ok st1
       else _import_updated_sales env m2 none none true st1) := by
  have h1 : methodTable "_import_sale_orders" = some cbImportSaleOrders := rfl
  have h2 : methodTable "_import_updated_sales" = some cbImportUpdatedSales := rfl
  unfold _scheduler_import_sale_orders _amazon_backend
  rw [h1, h2]
  by_cases hm : (searchBackends st domain).isEmpty
  · simp [hm, Except.bind, cbImportUpdatedSales]
  · simp [hm, Except.bind, cbImportSaleOrders, cbImportUpdatedSales]

/-- C3: with `update_import_date=True`, `_import_sale_orders` writes the
computed end time into `import_sales_from_date` after delegating the
sales load; with `update_import_date=False` the field is left unchanged;
both calls return `True`.  (The backend is the only record of the
database, so the written field can be read back.) -/
theorem import_sale_orders_update_date_flag (env : Env) (st : St) (b : Backend)
    (sOpt eOpt : Option PyDatetime) (gr : Bool) (hst : st.backends = [b]) :
    (_import_sale_orders env [b] sOpt eOpt gr true st).2 = true ∧
    (_import_sale_orders env [b] sOpt eOpt gr false st).2 = true ∧
    ((_import_sale_orders env [b] sOpt eOpt gr true st).1.backends.map
        fun x => x.importSalesFromDate) =
      [some (eOpt.getD (defaultImportEnd env.now)).sec] ∧
    ((_import_sale_orders env [b] sOpt eOpt gr false st).1.backends.map
        fun x => x.importSalesFromDate) = [b.importSalesFromDate] ∧
    (_import_sale_orders env [b] sOpt eOpt gr true st).1.events =
      (_import_sale_orders env [b] sOpt eOpt gr false st).1.events ++
        [Event.writeImportSalesFromDate b.id (eOpt.getD (defaultImportEnd env.now)).sec] ∧
    (gr = false →
      (_import_sale_orders env [b] sOpt eOpt gr false st).1.events =
        st.events ++
          (if b.importUpdatedSalesFromDate = none
           then [Event.writeImportUpdatedSalesFromDate b.id b.importSalesFromDate]
           else []) ++
          [Event.importBatchSales (effUser env b) b.id
            (sOpt.getD (match b.importSalesFromDate with
              | some d => PyDatetime.ofField d
              | none => eOpt.getD (defaultImportEnd env.now)))
            (eOpt.getD (defaultImportEnd env.now))]) := by
  cases hb : b.importUpdatedSalesFromDate <;>
    cases gr <;>
      simp [_import_sale_orders, importSaleOrdersLoop, importSaleOrdersStep, St.emit,
        St.writeImportSalesFromDate, St.writeImportUpdatedSalesFromDate, hst, hb] <;>
      cases env.salesReport b.id <;> simp

/-- C3 witness: on the sample backend the update flag stores the defaulted
end time (99880 seconds) into `import_sales_from_date`. -/
theorem import_sale_orders_update_date_flag_witness :
    ((_import_sale_orders sampleEnv [sampleBackend] none none false true
        sampleSt).1.backends.map fun x => x.importSalesFromDate) = [some 99880] :=
  ((import_sale_orders_update_date_flag sampleEnv sampleSt sampleBackend
    none none false rfl).2.2.1).trans (by decide)

/-- C4: in `_import_updated_sales` with no start argument, the guard that
picks the start time tests `import_sales_from_date` while the parsed value
is `import_updated_sales_from_date`: when `import_sales_from_date` is
unset the start time silently equals the end time whatever
`import_updated_sales_from_date` holds; when `import_sales_from_date` is
set and `import_updated_sales_from_date` is set the latter is parsed as
the start; and when `import_sales_from_date` is set but
`import_updated_sales_from_date` is unset the parse raises (`TypeError`)
instead of falling back. -/
theorem import_updated_sales_start_guard (env : Env) (st : St) (b : Backend)
    (eOpt : Option PyDatetime) :
    (b.importSalesFromDate = none →
      _import_updated_sales env [b] none eOpt true st =
        .ok (((st.emit (.importBatchUpdatedSales (effUser env b) b.id
                (eOpt.getD (defaultImportEnd env.now))
                (eOpt.getD (defaultImportEnd env.now)))).writeImportUpdatedSalesFromDate
              b.id (some (eOpt.getD (defaultImportEnd env.now)).sec)).emit
            (.writeImportUpdatedSalesFromDate b.id
              (some (eOpt.getD (defaultImportEnd env.now)).sec)))) ∧
    (∀ d, b.importSalesFromDate ≠ none → b.importUpdatedSalesFromDate = some d →
      _import_updated_sales env [b] none eOpt true st =
        .ok (((st.emit (.importBatchUpdatedSales (effUser env b) b.id
                (PyDatetime.ofField d)
                (eOpt.getD (defaultImportEnd env.now)))).writeImportUpdatedSalesFromDate
              b.id (some (eOpt.getD (defaultImportEnd env.now)).sec)).emit
            (.writeImportUpdatedSalesFromDate b.id
              (some (eOpt.getD (defaultImportEnd env.now)).sec)))) ∧
    (b.importSalesFromDate ≠ none → b.importUpdatedSalesFromDate = none →
      _import_updated_sales env [b] none eOpt true st = .error .typeError) := by
  refine ⟨?_, ?_, ?_⟩
  · intro h
    simp [_import_updated_sales, importUpdatedSalesLoop, importUpdatedSalesStep, h]
  · intro d h h2
    simp [_import_updated_sales, importUpdatedSalesLoop, importUpdatedSalesStep, h, h2]
  · intro h h2
    simp [_import_updated_sales, importUpdatedSalesLoop, importUpdatedSalesStep, h, h2]
    rfl

/-- C4 witness: on a backend with `import_sales_from_date` set and
`import_updated_sales_from_date` unset, the call raises. -/
theorem import_updated_sales_start_guard_witness :
    _import_updated_sales sampleEnv [noUpdatedDateBackend] none none true sampleSt =
      .error .typeError :=
  (import_updated_sales_start_guard sampleEnv sampleSt noUpdatedDateBackend none).2.2
    (by decide) rfl

/-- C6 counterexample: on a backend whose stored `import_sales_from_date`
(200000 s) lies after the defaulted end time (clock 100000 s truncated,
minus 120 s = 99880 s), the defaulted interval has start strictly after
end, refuting "start <= end always holds for the defaulted interval". -/
theorem import_sale_orders_defaults_counterexample :
    (_import_sale_orders sampleEnv [futureBackend] none none false true
        sampleSt).1.events =
      [Event.importBatchSales 1 9 ⟨200000, 0⟩ ⟨99880, 0⟩,
       Event.writeImportSalesFromDate 9 99880] ∧
    ¬ PyDatetime.le ⟨200000, 0⟩ ⟨99880, 0⟩ :=
  ⟨rfl, by decide⟩

/-- C6 (amended): with no time arguments, `_import_sale_orders` defaults
the end time to the current time truncated to whole seconds minus 2
minutes, and the start time to the parsed stored `import_sales_from_date`
when that field is set and to the end time itself otherwise; start <= end
is guaranteed when the field is unset (the start then equals the end),
while a set field may lie after the end time. -/
theorem import_sale_orders_defaults (env : Env) (st : St) (b : Backend) :
    (_import_sale_orders env [b] none none false false st).1.events =
      st.events ++
        (if b.importUpdatedSalesFromDate = none
         then [Event.writeImportUpdatedSalesFromDate b.id b.importSalesFromDate]
         else []) ++
        [Event.importBatchSales (effUser env b) b.id
          (match b.importSalesFromDate with
           | some d => PyDatetime.ofField d
           | none => env.now.truncToSeconds.subSeconds 120)
          (env.now.truncToSeconds.subSeconds 120)] ∧
    (b.importSalesFromDate = none →
      PyDatetime.le
        (match b.importSalesFromDate with
         | some d => PyDatetime.ofField d
         | none => env.now.truncToSeconds.subSeconds 120)
        (env.now.truncToSeconds.subSeconds 120)) := by
  constructor
  · cases hb : b.importUpdatedSalesFromDate <;>
      simp [_import_sale_orders, importSaleOrdersLoop, importSaleOrdersStep,
        defaultImportEnd, St.emit, St.writeImportUpdatedSalesFromDate, hb]
  · intro h
    simp [h, PyDatetime.le]

/-- C6 witness: on a backend with `import_sales_from_date` unset, the
defaulted interval degenerates to start = end = 99880 s. -/
theorem import_sale_orders_defaults_witness :
    (_import_sale_orders sampleEnv [unsetDateBackend] none none false false
        sampleSt).1.events =
      [Event.importBatchSales 1 10 ⟨99880, 0⟩ ⟨99880, 0⟩] ∧
    PyDatetime.le (⟨99880, 0⟩ : PyDatetime) ⟨99880, 0⟩ :=
  ⟨((import_sale_orders_defaults sampleEnv sampleSt unsetDateBackend).1).trans
      (by decide),
   (import_sale_orders_defaults sampleEnv sampleSt unsetDateBackend).2 rfl⟩

/-- C9: `check_same_import_jobs` returns `True` exactly when some
`queue.job` record sits on channel `root.amazon` in state `STARTED`,
`ENQUEUED` or `PENDING` with a `func_string` containing `str(backend)` and
the key and a `model_name` containing the model; any other state never
yields `True`. -/
theorem check_same_import_jobs_iff (st : St) (self : Backend)
    (model key : String) (b : Backend) :
    check_same_import_jobs st self model key (some b) = true ↔
      ∃ j ∈ st.jobs,
        j.channel = "root.amazon" ∧
        (j.state = .started ∨ j.state = .enqueued ∨ j.state = .pending) ∧
        ilike j.funcString (backendStr b) = true ∧
        ilike j.modelName model = true ∧
        ilike j.funcString key = true := by
  have hmain : check_same_import_jobs st self model key (some b) =
      !(st.jobs.filter (jobMatches b model key)).isEmpty := by
    unfold check_same_import_jobs
    cases h : (st.jobs.filter (jobMatches b model key)).isEmpty <;> simp [h]
  rw [hmain]
  simp [List.isEmpty_iff, List.filter_eq_nil_iff, jobMatches,
    Bool.and_eq_true, Bool.or_eq_true, beq_iff_eq, not_forall, or_assoc, and_assoc]

end AmazonBackend
